import Mathlib

/-!
# Verification of the kost07 property-management application

Shallow embedding of the parts of the repository that the specification's
claims are about:

* the privileged admin-user lifecycle functions
  (`supabase/functions/create-backoffice-user` and
  `supabase/functions/delete-backoffice-user`),
* the notification repository (`src/services/supabase.ts`,
  `notificationService`),
* the property statistics aggregation
  (`src/pages/backoffice/Properties.tsx`, `loadProperties`).

Database tables are modelled as lists of rows; the hosted identity store
is a list of identities.  The nondeterministic outcomes of external calls
(token resolution, identity-store accept/reject, profile-insert
success/failure) are injected as explicit environment parameters, so each
handler becomes a pure function from (environment, database, request) to
(database, response).  Timestamps are modelled as naturals.
-/

namespace Kost

/-- Authentication identity held by the hosted identity store
(`auth.users`): the fields the handlers touch are the generated id and
the email. -/
structure AuthUser where
  id : String
  email : String
deriving Repr, DecidableEq

/-- Row of the `backoffice_users` table, per the `BackofficeUser` shape
used by the edge functions: id shared with the auth identity, unique
email, display name, role and status strings. -/
structure BackofficeUser where
  id : String
  email : String
  name : String
  role : String
  status : String
deriving Repr, DecidableEq

/-- Row of the `rooms` table (fields from `types/index.ts`, `Room`). -/
structure Room where
  id : String
  number : String
  floor : String
  type : String
  price : ℚ
  status : String
  facilities : List String
  tenantId : Option String
  property_id : String
deriving Repr, DecidableEq

/-- Row of the `payments` table (fields from `types/index.ts`,
`Payment`). -/
structure Payment where
  id : String
  tenantId : String
  roomId : String
  amount : ℚ
  date : String
  dueDate : String
  status : String
  paymentMethod : Option String
  notes : Option String
  property_id : String
deriving Repr, DecidableEq

/-- Row of the `notifications` table (fields from `types/index.ts`,
`Notification`); `created_at` is modelled as a natural-number timestamp,
`target_user_id = none` is a broadcast notification. -/
structure Notification where
  id : String
  title : String
  message : String
  type : String
  status : String
  created_at : Nat
  target_user_id : Option String
  target_property_id : Option String
deriving Repr, DecidableEq

/-- The state the two edge functions read and write: the hosted
authentication-identity store and the `backoffice_users` table. -/
structure Db where
  identities : List AuthUser
  backofficeUsers : List BackofficeUser
deriving Repr, DecidableEq

/-- HTTP response of an edge function: status 200 with a confirmation
message on success, status 400 with the thrown error's message on any
failure. -/
structure HttpResponse where
  status : Nat
  message : String
deriving Repr, DecidableEq

/-- JSON body of `POST /create-backoffice-user`. -/
structure CreateRequest where
  email : String
  password : String
  name : String
  role : String
  status : String
deriving Repr, DecidableEq

/-- Injected outcomes of the external calls made by the create handler:
`caller` is the identity id the bearer token resolves to (`none` models a
missing header or `auth.getUser` failure), `newUserId` the id the
identity store assigns on success, `identityAccepts` whether
`auth.admin.createUser` succeeds (e.g. `false` on duplicate email), and
`profileInsertOk` whether the `backoffice_users` insert succeeds. -/
structure CreateEnv where
  caller : Option String
  newUserId : String
  identityAccepts : Bool
  profileInsertOk : Bool
deriving Repr, DecidableEq

/-- Injected outcomes of the external calls made by the delete handler:
`caller` as above, `deleteIdentityOk` whether `auth.admin.deleteUser`
succeeds. -/
structure DeleteEnv where
  caller : Option String
  deleteIdentityOk : Bool
deriving Repr, DecidableEq

/-- `supabase.from('backoffice_users').select(..).eq('id', id).single()`:
the first row of the table whose id matches, if any. -/
def findBackofficeUser (db : Db) (id : String) : Option BackofficeUser :=
  db.backofficeUsers.find? (fun u => u.id == id)

/-- The authorization guard shared by both edge functions: the caller's
`backoffice_users` row must exist and have role `superadmin` and status
`active`. -/
def isActiveSuperadmin (u : BackofficeUser) : Bool :=
  u.role == "superadmin" && u.status == "active"

/-- `auth.admin.deleteUser id`: remove the identity with the given id
from the identity store. -/
def deleteIdentity (db : Db) (id : String) : Db :=
  { db with identities := db.identities.filter (fun u => u.id != id) }

/-- The `create-backoffice-user` edge-function handler
(`src/unnamed/part_000`): resolve the caller, require an active
superadmin, create the auth identity, insert the profile row, and on a
failed insert delete the identity just created before reporting failure. -/
def createBackofficeUser (env : CreateEnv) (db : Db) (req : CreateRequest) :
    Db × HttpResponse :=
  match env.caller with
  | none => (db, ⟨400, "Unauthorized"⟩)
  | some callerId =>
    match findBackofficeUser db callerId with
    | none =>
      (db, ⟨400, "Only active superadmin users can create backoffice users"⟩)
    | some adminUser =>
      if !(isActiveSuperadmin adminUser) then
        (db, ⟨400, "Only active superadmin users can create backoffice users"⟩)
      else if !env.identityAccepts then
        (db, ⟨400, "Failed to create user"⟩)
      else
        let db1 : Db :=
          { db with identities := db.identities ++ [⟨env.newUserId, req.email⟩] }
        if !env.profileInsertOk then
          (deleteIdentity db1 env.newUserId,
           ⟨400, "Failed to create backoffice user"⟩)
        else
          ({ db1 with backofficeUsers := db1.backofficeUsers ++
              [⟨env.newUserId, req.email, req.name, req.role, req.status⟩] },
           ⟨200, "User created successfully"⟩)

/-- The `delete-backoffice-user` edge-function handler
(`supabase/functions/delete-backoffice-user/index.ts`): resolve the
caller, require an active superadmin, look up the target row, refuse if
the target is a superadmin, then delete the target's auth identity (the
profile row is removed by a store-level cascade, an external
collaborator). -/
def deleteBackofficeUser (env : DeleteEnv) (db : Db) (id : String) :
    Db × HttpResponse :=
  match env.caller with
  | none => (db, ⟨400, "Unauthorized"⟩)
  | some callerId =>
    match findBackofficeUser db callerId with
    | none =>
      (db, ⟨400, "Only active superadmin users can delete backoffice users"⟩)
    | some adminUser =>
      if !(isActiveSuperadmin adminUser) then
        (db, ⟨400, "Only active superadmin users can delete backoffice users"⟩)
      else
        match findBackofficeUser db id with
        | none => (db, ⟨400, "User not found"⟩)
        | some targetUser =>
          if targetUser.role == "superadmin" then
            (db, ⟨400, "Cannot delete superadmin users"⟩)
          else if !env.deleteIdentityOk then
            (db, ⟨400, "Failed to delete user"⟩)
          else
            (deleteIdentity db id, ⟨200, "User deleted successfully"⟩)

/-! ## Notification repository (`src/services/supabase.ts`, `notificationService`) -/

/-- The row filter used by `getAll` and `markAllAsRead`:
`.or('target_user_id.eq.<uid>,target_user_id.is.null')` — the
notification is targeted at the caller or is a broadcast. -/
def visibleTo (uid : String) (n : Notification) : Bool :=
  n.target_user_id == some uid || n.target_user_id == none

/-- `.order('created_at', { ascending: false })`: row `a` may precede
row `b` when its timestamp is at least as large. -/
def newestFirst (a b : Notification) : Bool :=
  b.created_at ≤ a.created_at

/-- `notificationService.getAll`: requires an authenticated user, then
selects the rows visible to the caller ordered newest first. -/
def notificationGetAll (uid : Option String) (db : List Notification) :
    Except String (List Notification) :=
  match uid with
  | none => .error "User not authenticated"
  | some u => .ok ((db.filter (visibleTo u)).mergeSort newestFirst)

/-- `notificationService.markAsRead(id)`: update `status` to `read` on
the rows whose id matches — no filter on the caller's identity. -/
def notificationMarkAsRead (id : String) (db : List Notification) :
    List Notification :=
  db.map (fun n => if n.id == id then { n with status := "read" } else n)

/-- Per-row effect of `markAllAsRead`: rows matching the visibility
filter and `.eq('status', 'unread')` are set to `read`, others kept. -/
def markReadIfVisibleUnread (uid : String) (n : Notification) : Notification :=
  if visibleTo uid n && n.status == "unread" then { n with status := "read" }
  else n

/-- `notificationService.markAllAsRead`: requires an authenticated user,
then updates `status` to `read` on every row that is visible to the
caller and currently unread. -/
def notificationMarkAllAsRead (uid : Option String) (db : List Notification) :
    Except String (List Notification) :=
  match uid with
  | none => .error "User not authenticated"
  | some u => .ok (db.map (markReadIfVisibleUnread u))

/-- `notificationService.delete(id)`: delete the rows whose id matches —
no filter on the caller's identity. -/
def notificationDelete (id : String) (db : List Notification) :
    List Notification :=
  db.filter (fun n => n.id != id)

/-! ## Property statistics aggregation
(`src/pages/backoffice/Properties.tsx`, `loadProperties`) -/

/-- Row of the `tenants` table (fields from `types/index.ts`,
`Tenant`). -/
structure Tenant where
  id : String
  name : String
  phone : String
  email : String
  roomId : String
  startDate : String
  endDate : String
  status : String
  paymentStatus : String
  lastPaymentDate : String
  property_id : String
deriving Repr, DecidableEq

/-- The tables the statistics aggregation reads. -/
structure StoreTables where
  rooms : List Room
  tenants : List Tenant
  payments : List Payment
deriving Repr, DecidableEq

/-- The `PropertyStats` record computed per property by
`loadProperties`. -/
structure PropertyStats where
  id : String
  total_revenue : ℚ
  total_tenants : Nat
  total_rooms : Nat
  occupied_rooms : Nat
  occupancy_rate : ℚ
  pending_payments : ℚ
deriving Repr, DecidableEq

/-- The per-property statistics computation in `loadProperties`: rooms
of the property give total and occupied counts and the occupancy rate
(`occupied/total*100`, or `0` when there are no rooms); active tenants
are counted; `amount` is summed over paid payments (total revenue) and
over pending/overdue payments (pending balance). -/
def propertyStats (store : StoreTables) (pid : String) : PropertyStats :=
  let rooms := store.rooms.filter (fun r => r.property_id == pid)
  let totalRooms := rooms.length
  let occupiedRooms := (rooms.filter (fun r => r.status == "occupied")).length
  let occupancyRate : ℚ :=
    if totalRooms > 0 then ((occupiedRooms : ℚ) / (totalRooms : ℚ)) * 100 else 0
  let tenantsCount :=
    (store.tenants.filter (fun t => t.property_id == pid && t.status == "active")).length
  let paidPayments :=
    store.payments.filter (fun p => p.property_id == pid && p.status == "paid")
  let totalRevenue := paidPayments.foldl (fun sum p => sum + p.amount) 0
  let pendingPayments :=
    store.payments.filter
      (fun p => p.property_id == pid && (p.status == "pending" || p.status == "overdue"))
  let pendingAmount := pendingPayments.foldl (fun sum p => sum + p.amount) 0
  ⟨pid, totalRevenue, tenantsCount, totalRooms, occupiedRooms, occupancyRate,
   pendingAmount⟩

/-! ## Claims about the admin-user lifecycle -/

/-- C1: when the caller is an authorized active superadmin, the identity
store accepts the new identity, and the subsequent `backoffice_users`
profile insert fails, `createBackofficeUser` responds with failure (400)
and deletes the identity it just created, so that afterwards the identity
store contains no identity for the attempted email (given that none
existed before the call, as the store's duplicate-email rejection
guarantees whenever it accepted the create). -/
theorem createAdminUser_rollback (env : CreateEnv) (db : Db)
    (req : CreateRequest) (cid : String) (a : BackofficeUser)
    (hc : env.caller = some cid)
    (ha : findBackofficeUser db cid = some a)
    (hsa : isActiveSuperadmin a = true)
    (hacc : env.identityAccepts = true)
    (hins : env.profileInsertOk = false)
    (hfresh : ∀ u ∈ db.identities, u.email ≠ req.email) :
    (createBackofficeUser env db req).2.status = 400 ∧
    ∀ u ∈ (createBackofficeUser env db req).1.identities, u.email ≠ req.email := by
  constructor
  · simp [createBackofficeUser, hc, ha, hsa, hacc, hins]
  · intro u hu
    simp only [createBackofficeUser, hc, ha, hsa, hacc, hins, Bool.not_true,
      Bool.false_eq_true, if_false, Bool.not_false, if_true, deleteIdentity,
      List.mem_filter, List.mem_append, List.mem_singleton] at hu
    rcases hu with ⟨hmem | hnew, hid⟩
    · exact hfresh u hmem
    · subst hnew
      simp at hid

/-- Witness for `createAdminUser_rollback` at a concrete store: a single
pre-existing superadmin creates `a@x.com`, the profile insert fails, and
the final identity store holds no identity for `a@x.com`. -/
theorem createAdminUser_rollback_witness :
    (createBackofficeUser ⟨some "i1", "i2", true, false⟩
        ⟨[⟨"i1", "root@x.com"⟩], [⟨"i1", "root@x.com", "Root", "superadmin", "active"⟩]⟩
        ⟨"a@x.com", "Passw0rd!", "A", "admin", "active"⟩).2.status = 400 ∧
    ∀ u ∈ (createBackofficeUser ⟨some "i1", "i2", true, false⟩
        ⟨[⟨"i1", "root@x.com"⟩], [⟨"i1", "root@x.com", "Root", "superadmin", "active"⟩]⟩
        ⟨"a@x.com", "Passw0rd!", "A", "admin", "active"⟩).1.identities,
      u.email ≠ "a@x.com" :=
  createAdminUser_rollback _ _ _ "i1" ⟨"i1", "root@x.com", "Root", "superadmin", "active"⟩
    rfl (by decide) (by decide) rfl rfl (by decide)

/-- C2: for every call to the delete handler whose target row exists
with role `superadmin`, the operation leaves the store unchanged and
responds 400; when moreover the caller is an authorized active
superadmin, the message is the superadmin-protection refusal. -/
theorem deleteAdminUser_superadmin_protected (env : DeleteEnv) (db : Db)
    (id : String) (t : BackofficeUser)
    (ht : findBackofficeUser db id = some t)
    (hrole : t.role = "superadmin") :
    (deleteBackofficeUser env db id).1 = db ∧
    (deleteBackofficeUser env db id).2.status = 400 ∧
    (∀ cid a, env.caller = some cid → findBackofficeUser db cid = some a →
      isActiveSuperadmin a = true →
      (deleteBackofficeUser env db id).2.message = "Cannot delete superadmin users") := by
  have hrole' : (t.role == "superadmin") = true := by
    simp [hrole]
  rcases hcall : env.caller with _ | cid
  · refine ⟨by simp [deleteBackofficeUser, hcall],
      by simp [deleteBackofficeUser, hcall], ?_⟩
    intro cid' a' heq
    cases heq
  · rcases hadm : findBackofficeUser db cid with _ | a
    · refine ⟨by simp [deleteBackofficeUser, hcall, hadm],
        by simp [deleteBackofficeUser, hcall, hadm], ?_⟩
      intro cid' a' heq hfind
      injection heq with heq'
      subst heq'
      rw [hadm] at hfind
      cases hfind
    · rcases hact : isActiveSuperadmin a with _ | _
      · refine ⟨by simp [deleteBackofficeUser, hcall, hadm, hact],
          by simp [deleteBackofficeUser, hcall, hadm, hact], ?_⟩
        intro cid' a' heq hfind hsa'
        injection heq with heq'
        subst heq'
        rw [hadm] at hfind
        injection hfind with hfind'
        subst hfind'
        rw [hact] at hsa'
        cases hsa'
      · refine ⟨?_, ?_, fun _ _ _ _ _ => ?_⟩ <;>
          simp [deleteBackofficeUser, hcall, hadm, hact, ht, hrole']

/-- Witness for `deleteAdminUser_superadmin_protected`: an authorized
superadmin attempts to delete another superadmin; the store is unchanged
and the response is the 400 protection refusal. -/
theorem deleteAdminUser_superadmin_protected_witness :
    (deleteBackofficeUser ⟨some "i1", true⟩
        ⟨[⟨"i1", "root@x.com"⟩, ⟨"i2", "b@x.com"⟩],
          [⟨"i1", "root@x.com", "Root", "superadmin", "active"⟩,
           ⟨"i2", "b@x.com", "B", "superadmin", "active"⟩]⟩ "i2").1 =
      ⟨[⟨"i1", "root@x.com"⟩, ⟨"i2", "b@x.com"⟩],
        [⟨"i1", "root@x.com", "Root", "superadmin", "active"⟩,
         ⟨"i2", "b@x.com", "B", "superadmin", "active"⟩]⟩ ∧
    (deleteBackofficeUser ⟨some "i1", true⟩
        ⟨[⟨"i1", "root@x.com"⟩, ⟨"i2", "b@x.com"⟩],
          [⟨"i1", "root@x.com", "Root", "superadmin", "active"⟩,
           ⟨"i2", "b@x.com", "B", "superadmin", "active"⟩]⟩ "i2").2.status = 400 := by
  have h := deleteAdminUser_superadmin_protected ⟨some "i1", true⟩
    ⟨[⟨"i1", "root@x.com"⟩, ⟨"i2", "b@x.com"⟩],
      [⟨"i1", "root@x.com", "Root", "superadmin", "active"⟩,
       ⟨"i2", "b@x.com", "B", "superadmin", "active"⟩]⟩ "i2"
    ⟨"i2", "b@x.com", "B", "superadmin", "active"⟩ (by decide) rfl
  exact ⟨h.1, h.2.1⟩

/-- C3: when the requested id equals the caller's own id and the caller
passed the authorization check (its row is an active superadmin), the
delete handler refuses with the 400 superadmin-protection message and
the store — both the caller's identity and its `backoffice_users` row —
is unchanged. -/
theorem deleteAdminUser_no_self_delete (env : DeleteEnv) (db : Db)
    (cid : String) (a : BackofficeUser)
    (hc : env.caller = some cid)
    (ha : findBackofficeUser db cid = some a)
    (hsa : isActiveSuperadmin a = true) :
    deleteBackofficeUser env db cid =
      (db, ⟨400, "Cannot delete superadmin users"⟩) := by
  have hrole : (a.role == "superadmin") = true := by
    simp only [isActiveSuperadmin, Bool.and_eq_true] at hsa
    exact hsa.1
  simp [deleteBackofficeUser, hc, ha, hsa, hrole]

/-- Witness for `deleteAdminUser_no_self_delete`: the lone active
superadmin asks to delete its own id and is refused with no change. -/
theorem deleteAdminUser_no_self_delete_witness :
    deleteBackofficeUser ⟨some "i1", true⟩
        ⟨[⟨"i1", "root@x.com"⟩], [⟨"i1", "root@x.com", "Root", "superadmin", "active"⟩]⟩
        "i1" =
      (⟨[⟨"i1", "root@x.com"⟩], [⟨"i1", "root@x.com", "Root", "superadmin", "active"⟩]⟩,
       ⟨400, "Cannot delete superadmin users"⟩) :=
  deleteAdminUser_no_self_delete _ _ "i1"
    ⟨"i1", "root@x.com", "Root", "superadmin", "active"⟩ rfl rfl (by decide)

/-- C4: for both lifecycle operations, when the bearer credential
resolves to an identity that has no `backoffice_users` row, or whose row
is not an active superadmin, the operation responds 400 and performs no
write: the store (identities and `backoffice_users`) is returned
unchanged. -/
theorem adminLifecycle_requires_active_superadmin (cenv : CreateEnv)
    (denv : DeleteEnv) (db : Db) (req : CreateRequest) (id cid : String)
    (hc : cenv.caller = some cid) (hd : denv.caller = some cid)
    (hbad : findBackofficeUser db cid = none ∨
      ∀ a, findBackofficeUser db cid = some a → isActiveSuperadmin a = false) :
    (createBackofficeUser cenv db req).1 = db ∧
    (createBackofficeUser cenv db req).2.status = 400 ∧
    (deleteBackofficeUser denv db id).1 = db ∧
    (deleteBackofficeUser denv db id).2.status = 400 := by
  rcases hadm : findBackofficeUser db cid with _ | a
  · simp [createBackofficeUser, deleteBackofficeUser, hc, hd, hadm]
  · rcases hbad with hbad | hbad
    · rw [hbad] at hadm; cases hadm
    · have hfa := hbad a hadm
      simp [createBackofficeUser, deleteBackofficeUser, hc, hd, hadm, hfa]

/-- Witness for `adminLifecycle_requires_active_superadmin`: a caller
whose row has role `admin` can neither create nor delete; the store is
unchanged and both responses are 400. -/
theorem adminLifecycle_requires_active_superadmin_witness :
    (createBackofficeUser ⟨some "i1", "i9", true, true⟩
        ⟨[⟨"i1", "adm@x.com"⟩], [⟨"i1", "adm@x.com", "Adm", "admin", "active"⟩]⟩
        ⟨"a@x.com", "pw", "A", "admin", "active"⟩).1 =
      ⟨[⟨"i1", "adm@x.com"⟩], [⟨"i1", "adm@x.com", "Adm", "admin", "active"⟩]⟩ ∧
    (createBackofficeUser ⟨some "i1", "i9", true, true⟩
        ⟨[⟨"i1", "adm@x.com"⟩], [⟨"i1", "adm@x.com", "Adm", "admin", "active"⟩]⟩
        ⟨"a@x.com", "pw", "A", "admin", "active"⟩).2.status = 400 ∧
    (deleteBackofficeUser ⟨some "i1", true⟩
        ⟨[⟨"i1", "adm@x.com"⟩], [⟨"i1", "adm@x.com", "Adm", "admin", "active"⟩]⟩
        "i1").1 =
      ⟨[⟨"i1", "adm@x.com"⟩], [⟨"i1", "adm@x.com", "Adm", "admin", "active"⟩]⟩ ∧
    (deleteBackofficeUser ⟨some "i1", true⟩
        ⟨[⟨"i1", "adm@x.com"⟩], [⟨"i1", "adm@x.com", "Adm", "admin", "active"⟩]⟩
        "i1").2.status = 400 :=
  adminLifecycle_requires_active_superadmin _ _ _ _ "i1" "i1" rfl rfl
    (Or.inr (by decide))

/-- C9: once the caller is an authorized active superadmin and the
identity store accepts the create, a successful profile insert stores
exactly the caller-supplied role and status with no validation: the
handler succeeds (200) and appends the row verbatim, for every role and
status string — in particular for role = superadmin — and never fails on
account of the role or status values. -/
theorem createAdminUser_no_role_validation (env : CreateEnv) (db : Db)
    (req : CreateRequest) (cid : String) (a : BackofficeUser)
    (hc : env.caller = some cid)
    (ha : findBackofficeUser db cid = some a)
    (hsa : isActiveSuperadmin a = true)
    (hacc : env.identityAccepts = true)
    (hins : env.profileInsertOk = true) :
    createBackofficeUser env db req =
      ({ identities := db.identities ++ [⟨env.newUserId, req.email⟩],
         backofficeUsers := db.backofficeUsers ++
           [⟨env.newUserId, req.email, req.name, req.role, req.status⟩] },
       ⟨200, "User created successfully"⟩) := by
  simp [createBackofficeUser, hc, ha, hsa, hacc, hins]

/-- Witness for `createAdminUser_no_role_validation`: a request with
role `superadmin` succeeds and creates a second superadmin profile. -/
theorem createAdminUser_no_role_validation_witness :
    createBackofficeUser ⟨some "i1", "i2", true, true⟩
        ⟨[⟨"i1", "root@x.com"⟩], [⟨"i1", "root@x.com", "Root", "superadmin", "active"⟩]⟩
        ⟨"a@x.com", "pw", "A", "superadmin", "active"⟩ =
      (⟨[⟨"i1", "root@x.com"⟩, ⟨"i2", "a@x.com"⟩],
        [⟨"i1", "root@x.com", "Root", "superadmin", "active"⟩,
         ⟨"i2", "a@x.com", "A", "superadmin", "active"⟩]⟩,
       ⟨200, "User created successfully"⟩) :=
  createAdminUser_no_role_validation _ _ _ "i1"
    ⟨"i1", "root@x.com", "Root", "superadmin", "active"⟩ rfl rfl (by decide) rfl rfl

/-! ## Claims about the statistics aggregation -/

/-- C5: the occupancy rate is `0` for a property with no rooms and
otherwise `occupied / total * 100` over that property's rooms, and it
always lies in `[0, 100]`. -/
theorem occupancyRate_spec (store : StoreTables) (pid : String) :
    (propertyStats store pid).occupancy_rate =
      (if (store.rooms.filter (fun r => r.property_id == pid)).length = 0 then (0 : ℚ)
       else (((store.rooms.filter (fun r => r.property_id == pid)).filter
                (fun r => r.status == "occupied")).length : ℚ) /
            ((store.rooms.filter (fun r => r.property_id == pid)).length : ℚ) * 100) ∧
    0 ≤ (propertyStats store pid).occupancy_rate ∧
    (propertyStats store pid).occupancy_rate ≤ 100 := by
  have hle : ((store.rooms.filter (fun r => r.property_id == pid)).filter
      (fun r => r.status == "occupied")).length ≤
      (store.rooms.filter (fun r => r.property_id == pid)).length :=
    List.length_filter_le _ _
  simp only [propertyStats]
  set l := store.rooms.filter (fun r => r.property_id == pid) with hl
  rcases Nat.eq_zero_or_pos l.length with h0 | hpos
  · simp [h0]
  · have h0' : l.length ≠ 0 := Nat.pos_iff_ne_zero.mp hpos
    have hq : (0 : ℚ) < (l.length : ℚ) := by exact_mod_cast hpos
    have hocc : (0 : ℚ) ≤ ((l.filter (fun r => r.status == "occupied")).length : ℚ) := by
      positivity
    have hdiv1 : ((l.filter (fun r => r.status == "occupied")).length : ℚ) /
        (l.length : ℚ) ≤ 1 := by
      rw [div_le_one hq]
      exact_mod_cast hle
    refine ⟨by simp [hpos, h0'], ?_, ?_⟩
    · simp only [hpos, if_true, gt_iff_lt]
      positivity
    · simp only [hpos, if_true, gt_iff_lt]
      calc ((l.filter (fun r => r.status == "occupied")).length : ℚ) /
            (l.length : ℚ) * 100 ≤ 1 * 100 :=
              mul_le_mul_of_nonneg_right hdiv1 (by norm_num)
        _ = 100 := one_mul 100

/-- Folding payment amounts starting from `init` equals `init` plus the
sum of the amounts (the `reduce((sum, p) => sum + Number(p.amount), 0)`
pattern of `loadProperties`). -/
theorem foldl_add_amount (l : List Payment) (init : ℚ) :
    l.foldl (fun sum p => sum + p.amount) init =
      init + (l.map Payment.amount).sum := by
  induction l generalizing init with
  | nil => simp
  | cons p l ih => simp [ih, add_assoc]

/-- Concrete scenario of the spec for C6: one property `p1` with two
paid payments of 500 and 750 and one pending payment of 300. -/
def demoStore : StoreTables :=
  { rooms := [],
    tenants := [],
    payments :=
      [⟨"pay1", "t1", "r1", 500, "2024-01-01", "2024-01-10", "paid", none, none, "p1"⟩,
       ⟨"pay2", "t2", "r2", 750, "2024-01-02", "2024-01-11", "paid", none, none, "p1"⟩,
       ⟨"pay3", "t3", "r3", 300, "2024-01-03", "2024-01-12", "pending", none, none, "p1"⟩] }

/-- C6: total revenue is the sum of `amount` over the property's paid
payments, the pending balance is the sum of `amount` over its pending or
overdue payments, and on the spec's concrete scenario (paid 500 and 750,
pending 300) they are 1250 and 300. -/
theorem revenue_pending_spec (store : StoreTables) (pid : String) :
    (propertyStats store pid).total_revenue =
      ((store.payments.filter
          (fun p => p.property_id == pid && p.status == "paid")).map
        Payment.amount).sum ∧
    (propertyStats store pid).pending_payments =
      ((store.payments.filter
          (fun p => p.property_id == pid &&
            (p.status == "pending" || p.status == "overdue"))).map
        Payment.amount).sum ∧
    (propertyStats demoStore "p1").total_revenue = 1250 ∧
    (propertyStats demoStore "p1").pending_payments = 300 := by
  refine ⟨?_, ?_, ?_, ?_⟩
  · simp [propertyStats, foldl_add_amount]
  · simp [propertyStats, foldl_add_amount]
  · simp [propertyStats, demoStore, List.filter]
    norm_num
  · simp [propertyStats, demoStore, List.filter]

/-! ## Claims about the notification repository -/

/-- C7: with an authenticated caller, `markAllAsRead` maps every row
through a per-row update that sets status to `read` exactly on the rows
visible to the caller and currently unread, and returns every other row
— targeted at a different user or already read — unchanged in all
fields. -/
theorem markAllAsRead_spec (uid : String) (db : List Notification) :
    notificationMarkAllAsRead (some uid) db =
      .ok (db.map (markReadIfVisibleUnread uid)) ∧
    (∀ n : Notification, visibleTo uid n = true → n.status = "unread" →
      markReadIfVisibleUnread uid n = { n with status := "read" }) ∧
    (∀ n : Notification, visibleTo uid n = false ∨ n.status ≠ "unread" →
      markReadIfVisibleUnread uid n = n) := by
  refine ⟨rfl, ?_, ?_⟩
  · intro n hv hs
    simp [markReadIfVisibleUnread, hv, hs]
  · intro n hn
    rcases hn with hv | hs
    · simp [markReadIfVisibleUnread, hv]
    · simp [markReadIfVisibleUnread, hs]

/-- Witness for `markAllAsRead_spec`: an unread broadcast notification
is set to read, while an unread notification targeted at another user is
returned unchanged. -/
theorem markAllAsRead_spec_witness :
    markReadIfVisibleUnread "u1"
        ⟨"n1", "T", "M", "system", "unread", 5, none, none⟩ =
      ⟨"n1", "T", "M", "system", "read", 5, none, none⟩ ∧
    markReadIfVisibleUnread "u1"
        ⟨"n2", "T", "M", "system", "unread", 6, some "u2", none⟩ =
      ⟨"n2", "T", "M", "system", "unread", 6, some "u2", none⟩ :=
  ⟨(markAllAsRead_spec "u1" []).2.1
      ⟨"n1", "T", "M", "system", "unread", 5, none, none⟩ (by decide) rfl,
   (markAllAsRead_spec "u1" []).2.2
      ⟨"n2", "T", "M", "system", "unread", 6, some "u2", none⟩
      (Or.inl (by decide))⟩

/-- C8: with an authenticated caller, `getAll` returns a permutation of
exactly the rows targeted at the caller or broadcast, ordered newest
first by creation timestamp; with no authenticated caller it fails with
an error. -/
theorem getAll_spec (uid : String) (db : List Notification) :
    (∃ l, notificationGetAll (some uid) db = .ok l ∧
      l.Perm (db.filter (visibleTo uid)) ∧
      l.Pairwise (fun a b => b.created_at ≤ a.created_at)) ∧
    notificationGetAll none db = .error "User not authenticated" := by
  refine ⟨⟨(db.filter (visibleTo uid)).mergeSort newestFirst, rfl, ?_, ?_⟩, rfl⟩
  · exact List.mergeSort_perm _ _
  · have hs := @List.sorted_mergeSort Notification newestFirst
      (fun a b c hab hbc => by
        simp only [newestFirst, decide_eq_true_eq] at *
        exact le_trans hbc hab)
      (fun a b => by
        simp only [newestFirst, Bool.or_eq_true, decide_eq_true_eq]
        exact Nat.le_total b.created_at a.created_at)
      (db.filter (visibleTo uid))
    exact hs.imp (fun h => by
      simpa [newestFirst, decide_eq_true_eq] using h)

/-- C10: `markAsRead` and `delete` filter only by the notification id
and not by the caller: any stored row whose id matches is updated to
read / removed even when it targets a different user, whereas the
caller-scoped `markAllAsRead` per-row update leaves a row that is not
visible to the caller unchanged. -/
theorem notification_byId_ops_unscoped (id : String) (db : List Notification)
    (n : Notification) (hn : n ∈ db) (hid : n.id = id) :
    { n with status := "read" } ∈ notificationMarkAsRead id db ∧
    n ∉ notificationDelete id db ∧
    (∀ uid, visibleTo uid n = false → markReadIfVisibleUnread uid n = n) := by
  refine ⟨?_, ?_, ?_⟩
  · exact List.mem_map.mpr ⟨n, hn, by simp [hid]⟩
  · intro hmem
    simp [notificationDelete, List.mem_filter, hid] at hmem
  · intro uid hv
    simp [markReadIfVisibleUnread, hv]

/-- Witness for `notification_byId_ops_unscoped`: a notification
targeted at user `u2` is marked read and deleted by id regardless of the
caller, while `markAllAsRead` on behalf of `u1` leaves it unchanged. -/
theorem notification_byId_ops_unscoped_witness :
    ⟨"n1", "T", "M", "user", "read", 7, some "u2", none⟩ ∈
      notificationMarkAsRead "n1"
        [⟨"n1", "T", "M", "user", "unread", 7, some "u2", none⟩] ∧
    (⟨"n1", "T", "M", "user", "unread", 7, some "u2", none⟩ : Notification) ∉
      notificationDelete "n1"
        [⟨"n1", "T", "M", "user", "unread", 7, some "u2", none⟩] ∧
    (∀ uid, visibleTo uid ⟨"n1", "T", "M", "user", "unread", 7, some "u2", none⟩ = false →
      markReadIfVisibleUnread uid
        ⟨"n1", "T", "M", "user", "unread", 7, some "u2", none⟩ =
      ⟨"n1", "T", "M", "user", "unread", 7, some "u2", none⟩) :=
  notification_byId_ops_unscoped "n1"
    [⟨"n1", "T", "M", "user", "unread", 7, some "u2", none⟩]
    ⟨"n1", "T", "M", "user", "unread", 7, some "u2", none⟩
    (List.mem_singleton.mpr rfl) rfl

end Kost
